import Mathlib

set_option maxRecDepth 100000

/-!
Shallow embedding of the AI-chat portion of `script.js` from the portfolio
repository, together with a spec-modelled Completion Gateway (the FastAPI
service `api/main.py` is not among the provided sources; only its README is).

Modelling conventions:
- JS strings are Lean `String`; `String.prototype.includes` is embedded as an
  explicit character-list infix search (`jsIncludes`), `toLowerCase` as a
  character-wise lowercase map, and `trim` as whitespace stripping (`jsTrim`).
- The mutable module state `chatState = {messages, isConnected, isTyping}` is an
  explicit `ChatState` record threaded through each operation.
- Network effects are explicit: each operation returns, besides the new state,
  the list of outbound HTTP requests it issues; the answer given by the environment to a
  request (success, HTTP error, network error, malformed body) is an input.
- DOM-only effects (clearing the input box, removing the welcome banner,
  scrolling) are omitted; calls to `addMessage`, which append bubbles to the
  visible chat log, are recorded in a `uiMessages` list because the visible log
  and `chatState.messages` deliberately diverge on the error path.
-/

/-- A chat message as pushed onto `chatState.messages`: `{role, content}`. -/
structure Message where
  role : String
  content : String
deriving Repr, DecidableEq

/-- The module-level `chatState` object of `script.js`. -/
structure ChatState where
  messages : List Message
  isConnected : Bool
  isTyping : Bool
deriving Repr, DecidableEq

/-- `charsLeadWith sub l` : `l` starts with `sub` (character lists). -/
def charsLeadWith : List Char → List Char → Bool
  | [], _ => true
  | _ :: _, [] => false
  | a :: as, b :: bs => a == b && charsLeadWith as bs

/-- `charsContain sub l` : `sub` occurs contiguously inside `l`. -/
def charsContain (sub : List Char) : List Char → Bool
  | [] => charsLeadWith sub []
  | c :: rest => charsLeadWith sub (c :: rest) || charsContain sub rest

/-- Embedding of JS `s.includes(sub)` : substring containment. -/
def jsIncludes (s sub : String) : Bool :=
  charsContain sub.toList s.toList

/-- Embedding of JS `s.toLowerCase()` (ASCII-relevant part), written as a
character-list map so it reduces definitionally. -/
def jsToLowerCase (s : String) : String :=
  String.mk (s.data.map Char.toLower)

/-- Embedding of JS `s.trim()`: strip leading and trailing whitespace, written
over the character list so it reduces definitionally. -/
def jsTrim (s : String) : String :=
  String.mk (((s.data.dropWhile Char.isWhitespace).reverse.dropWhile Char.isWhitespace).reverse)

/-- The `demoResponses` literal object in `getDemoResponse`. -/
structure DemoResponses where
  skills : String
  projects : String
  ai : String
  dflt : String

/-- The four canned replies of `getDemoResponse` (field `dflt` embeds the JS
key `default`, a Lean keyword). -/
def demoResponses : DemoResponses where
  skills := "I\x27m a developer with expertise in JavaScript, HTML & CSS, React, Node.js, and Git. I\x27ve also built this AI chat interface using FastAPI and modern LLM integration!"
  projects := "I\x27ve worked on various projects including this portfolio website with an integrated AI assistant. The AI backend is powered by a FastAPI microservice running on an edge server with Ollama for local LLM hosting."
  ai := "This AI assistant is powered by a FastAPI microservice that I built. It uses OpenAI-compatible endpoints and can connect to Ollama or other LLM backends. The service runs on edge servers for better privacy and control."
  dflt := "This is demo mode! To enable full AI capabilities, make sure the FastAPI microservice is running. Check out the API documentation for deployment instructions. You can ask me about my skills, projects, or how this AI system works!"

/-- The pure keyword dispatch inside `getDemoResponse`: lower-case the input,
then the if/else-if chain over `includes` tests, defaulting to
`demoResponses.default`. -/
def demoReply (userMessage : String) : String :=
  let lowerMessage := jsToLowerCase userMessage
  if jsIncludes lowerMessage "skill" || jsIncludes lowerMessage "experience" then
    demoResponses.skills
  else if jsIncludes lowerMessage "project" then
    demoResponses.projects
  else if jsIncludes lowerMessage "ai" || jsIncludes lowerMessage "work" || jsIncludes lowerMessage "assistant" then
    demoResponses.ai
  else
    demoResponses.dflt

/-- Body of the POST issued by `getAIResponse`:
`{messages: chatState.messages, temperature: 0.7, max_tokens: 500}`.
The literal `0.7` is carried as the rational 7/10 (it is only passed through,
never computed with). -/
structure ChatRequestBody where
  messages : List Message
  temperature : Rat
  max_tokens : Nat
deriving Repr, DecidableEq

/-- An outbound HTTP request issued by the chat module. -/
inductive Request where
  /-- `GET {baseURL}/health` from `checkAPIHealth`. -/
  | healthProbe : Request
  /-- `POST {baseURL}/v1/chat/completions` from `getAIResponse`. -/
  | chat : ChatRequestBody → Request
deriving Repr, DecidableEq

/-- Answer given by the environment to the chat POST of `getAIResponse`, as the code
distinguishes it: `success content` is the path where `response.ok` holds,
`response.json()` parses and `data.message.content` exists; every other
constructor lands in the `catch` block (thrown `API Error`, rejected fetch, or
a body from which `data.message.content` cannot be read). -/
inductive ChatOutcome where
  | success (content : String)
  | httpError (status : Nat)
  | networkError
  | malformedBody
deriving Repr, DecidableEq

/-- The error bubble text hard-coded in the `catch` of `getAIResponse`. -/
def apiErrorText : String :=
  "⚠️ Sorry, I encountered an error. The API might be unavailable. Please check if the FastAPI service is running on your edge server."

/-- Result of running one chat-module operation: the new `chatState`, the
bubbles appended to the visible chat log via `addMessage`, and the outbound
requests issued. -/
structure TurnResult where
  state : ChatState
  uiMessages : List Message
  requests : List Request
deriving Repr, DecidableEq

/-- Embedding of `getAIResponse`: builds the POST body from the current
`chatState.messages`, then on success calls `addMessage` with role assistant AND
pushes the assistant message onto `chatState.messages`; in the `catch` it only
calls `addMessage` with role assistant and `apiErrorText` — no push onto
`chatState.messages`. -/
def getAIResponse (outcome : ChatOutcome) (s : ChatState) : TurnResult :=
  let req := Request.chat { messages := s.messages, temperature := 7/10, max_tokens := 500 }
  match outcome with
  | ChatOutcome.success content =>
      { state := { s with messages := s.messages ++ [⟨"assistant", content⟩] }
        uiMessages := [⟨"assistant", content⟩]
        requests := [req] }
  | _ =>
      { state := s
        uiMessages := [⟨"assistant", apiErrorText⟩]
        requests := [req] }

/-- Embedding of the stateful part of `getDemoResponse`: computes the canned
reply, calls `addMessage` with role assistant and the reply and pushes it onto
`chatState.messages`; issues no network request. -/
def getDemoResponse (userMessage : String) (s : ChatState) : TurnResult :=
  let response := demoReply userMessage
  { state := { s with messages := s.messages ++ [⟨"assistant", response⟩] }
    uiMessages := [⟨"assistant", response⟩]
    requests := [] }

/-- Embedding of `sendMessage`. Guard: `if (!message || chatState.isTyping)
return;` is a no-op. Otherwise: `addMessage` with role user, push the user
message onto `chatState.messages`, `showTypingIndicator()` (sets
`isTyping = true`), dispatch on `chatState.isConnected` to `getAIResponse` or
`getDemoResponse`, then `hideTypingIndicator()` (sets `isTyping = false`).
The `outcome` given by the environment is consulted only on the LIVE path. -/
def sendMessage (inputValue : String) (outcome : ChatOutcome) (s : ChatState) : TurnResult :=
  let message := jsTrim inputValue
  if message.isEmpty || s.isTyping then
    { state := s, uiMessages := [], requests := [] }
  else
    let s1 : ChatState := { s with messages := s.messages ++ [⟨"user", message⟩] }
    let s2 : ChatState := { s1 with isTyping := true }
    let r := if s2.isConnected then getAIResponse outcome s2 else getDemoResponse message s2
    { state := { r.state with isTyping := false }
      uiMessages := Message.mk "user" message :: r.uiMessages
      requests := r.requests }

/-- Answer given by the environment to the `GET /health` probe of `checkAPIHealth`:
`okJson m` is `response.ok` with a JSON body whose `model` field is `m`
(absent field renders as the string "undefined" in the template literal);
`okMalformed` is `response.ok` but `response.json()` throws; `notOk` is a
non-2xx response (the code throws an API-not-responding error); `networkError` is
a rejected fetch. All but `okJson` land in the `catch`. -/
inductive HealthOutcome where
  | okJson (modelField : Option String)
  | okMalformed
  | notOk (status : Nat)
  | networkError
deriving Repr, DecidableEq

/-- Result of `checkAPIHealth`: new state, the `(status, text)` pair passed to
`updateStatus`, whether `showDemoModeMessage()` ran, and the requests issued. -/
structure HealthResult where
  state : ChatState
  statusShown : String × String
  demoBannerShown : Bool
  requests : List Request
deriving Repr, DecidableEq

/-- Embedding of `checkAPIHealth`: one probe; on `response.ok` with a parsed
body set `isConnected = true` and show `online`; every other outcome falls
into the `catch`, sets `isConnected = false`, shows `offline` and the demo
banner. The whole body sits in `try … catch`, so the function is total — no
outcome escapes as a thrown error. -/
def checkAPIHealth (outcome : HealthOutcome) (s : ChatState) : HealthResult :=
  match outcome with
  | HealthOutcome.okJson m =>
      { state := { s with isConnected := true }
        statusShown := ("online", "Connected to " ++ m.getD "undefined")
        demoBannerShown := false
        requests := [Request.healthProbe] }
  | _ =>
      { state := { s with isConnected := false }
        statusShown := ("offline", "API Offline - Using Demo Mode")
        demoBannerShown := true
        requests := [Request.healthProbe] }

/-- The options object a `fetch` call is issued with, as far as the chat
module populates it: `method`, `headers`, and — nowhere in the source — any
timeout or abort signal. -/
structure FetchInit where
  method : String
  headers : List (String × String)
  timeoutMs : Option Nat
  hasAbortSignal : Bool
deriving Repr, DecidableEq

/-- The literal options passed to `fetch` in `checkAPIHealth`
(`script.js` lines 457–462): method GET, one header, and no timeout or
abort signal anywhere in the call or in `API_CONFIG`. -/
def checkAPIHealthFetchInit : FetchInit :=
  { method := "GET"
    headers := [("Content-Type", "application/json")]
    timeoutMs := none
    hasAbortSignal := false }

/-- Embedding of `clearChat`: the body runs only when the user accepts the
browser confirm dialog (`confirmed`); it then sets
`chatState.messages = []` and rewrites the HTML of the chat log. It never touches
`isConnected` or `isTyping` and issues no request (no re-probe). -/
def clearChat (confirmed : Bool) (s : ChatState) : TurnResult :=
  if confirmed then
    { state := { s with messages := [] }, uiMessages := [], requests := [] }
  else
    { state := s, uiMessages := [], requests := [] }

/-- Token usage block of a ChatCompletionResponse. -/
structure Usage where
  prompt_tokens : Nat
  completion_tokens : Nat
  total_tokens : Nat
deriving Repr, DecidableEq

/-- Wire-level response envelope of `POST /v1/chat/completions`:
`{id, model, created, message, usage}`. -/
structure ChatCompletionResponse where
  id : String
  model : String
  created : Nat
  message : Message
  usage : Usage
deriving Repr, DecidableEq

/-- Gateway error taxonomy: validation failure, runtime unreachable, or
runtime reply unparsable. -/
inductive GatewayError where
  | validationError
  | gatewayUnavailable
  | upstreamMalformed
deriving Repr, DecidableEq

/-- Outcome of the native call of the Gateway to the model runtime: a generated
text (with token counts the runtime may or may not report), or one of the
failure modes. -/
inductive RuntimeOutcome where
  | reply (text : String) (reportedPrompt reportedCompletion : Option Nat)
  | timeout
  | connectionRefused
  | malformedOutput
deriving Repr, DecidableEq

/-- Modelled from the spec: the token estimate of the Gateway used when the runtime
reports no counts ("token-usage figures either reported by the runtime or
estimated"); the estimation formula itself is not fixed by the spec. -/
def estimateTokens (s : String) : Nat :=
  s.length / 4 + 1

/-- Modelled from the spec: a request entry is valid when it "has a recognized
role and non-empty content"; recognized roles are the Message roles
{user, assistant}. -/
def validMessage (m : Message) : Bool :=
  (m.role == "user" || m.role == "assistant") && !m.content.isEmpty

/-- Modelled from the spec: the `chatCompletion` operation of the Completion Gateway
(its implementation, `api/main.py`, is not among the provided sources; only
its README with an example response is). Per the spec it validates that
`messages` is non-empty and each entry is valid; forwards the history to the
runtime; on a successful native reply synthesizes a ChatCompletionResponse
with a freshly generated unique id (modelled as a fresh `nonce` drawn per
call), the current timestamp `now`, the text from the runtime as the assistant
message, and usage figures reported or estimated; on native-call failure it
signals `GatewayUnavailable` or `UpstreamMalformed` rather than fabricating a
reply. -/
def chatCompletion (modelName : String) (now : Nat) (nonce : String)
    (runtime : RuntimeOutcome) (req : ChatRequestBody) :
    Except GatewayError ChatCompletionResponse :=
  if req.messages.isEmpty || !(req.messages.all validMessage) then
    Except.error GatewayError.validationError
  else
    match runtime with
    | RuntimeOutcome.reply text rp rc =>
        let pt := rp.getD (estimateTokens (String.join ((req.messages.map Message.content))))
        let ct := rc.getD (estimateTokens text)
        Except.ok
          { id := "chatcmpl-" ++ nonce
            model := modelName
            created := now
            message := ⟨"assistant", text⟩
            usage := ⟨pt, ct, pt + ct⟩ }
    | RuntimeOutcome.malformedOutput => Except.error GatewayError.upstreamMalformed
    | _ => Except.error GatewayError.gatewayUnavailable

/-- Discriminator for the success branch of `getAIResponse` (the path on which
`chatState.messages` gains the assistant reply). -/
def ChatOutcome.isSuccess : ChatOutcome → Bool
  | ChatOutcome.success _ => true
  | _ => false

/-- Discriminator for the one `checkAPIHealth` outcome that reaches the end of
the `try` block (`response.ok` with a parsed JSON body). -/
def HealthOutcome.isOk : HealthOutcome → Bool
  | HealthOutcome.okJson _ => true
  | _ => false

/-- C5: the Demo Responder is a deterministic function of the input text: it
lower-cases the input and tests an ordered, fixed-priority sequence of keyword
categories — skills/experience first, then projects, then
assistant/self-referential — where the first match wins and a default reply is
returned when none match; `demoReply "Tell me about your skills"` resolves to
the skills category and `demoReply "asdfgh"` to the default category. -/
theorem demoReply_fixed_priority :
    (∀ s, (jsIncludes (jsToLowerCase s) "skill" || jsIncludes (jsToLowerCase s) "experience") = true →
      demoReply s = demoResponses.skills)
    ∧ (∀ s, (jsIncludes (jsToLowerCase s) "skill" || jsIncludes (jsToLowerCase s) "experience") = false →
        jsIncludes (jsToLowerCase s) "project" = true →
      demoReply s = demoResponses.projects)
    ∧ (∀ s, (jsIncludes (jsToLowerCase s) "skill" || jsIncludes (jsToLowerCase s) "experience") = false →
        jsIncludes (jsToLowerCase s) "project" = false →
        (jsIncludes (jsToLowerCase s) "ai" || jsIncludes (jsToLowerCase s) "work" || jsIncludes (jsToLowerCase s) "assistant") = true →
      demoReply s = demoResponses.ai)
    ∧ (∀ s, (jsIncludes (jsToLowerCase s) "skill" || jsIncludes (jsToLowerCase s) "experience") = false →
        jsIncludes (jsToLowerCase s) "project" = false →
        (jsIncludes (jsToLowerCase s) "ai" || jsIncludes (jsToLowerCase s) "work" || jsIncludes (jsToLowerCase s) "assistant") = false →
      demoReply s = demoResponses.dflt)
    ∧ demoReply "Tell me about your skills" = demoResponses.skills
    ∧ demoReply "asdfgh" = demoResponses.dflt := by
  refine ⟨?_, ?_, ?_, ?_, by decide, by decide⟩
  all_goals intro s
  all_goals intros
  all_goals simp_all [demoReply]

/-- C5 witness: the first-priority branch applied at the concrete input
"experience". -/
theorem demoReply_fixed_priority_witness :
    demoReply "experience" = demoResponses.skills :=
  demoReply_fixed_priority.1 "experience" (by decide)

/-- C10: the demo keyword matching is case-insensitive substring containment,
not word membership: any input whose lowercased text contains "ai" as a
substring and none of "skill", "experience", "project" resolves to the
assistant/self-referential category. -/
theorem demoReply_ai_substring (s : String)
    (hai : jsIncludes (jsToLowerCase s) "ai" = true)
    (hskill : jsIncludes (jsToLowerCase s) "skill" = false)
    (hexp : jsIncludes (jsToLowerCase s) "experience" = false)
    (hproj : jsIncludes (jsToLowerCase s) "project" = false) :
    demoReply s = demoResponses.ai := by
  simp [demoReply, hai, hskill, hexp, hproj]

/-- C10 witness: "MAINTAIN" contains "ai" only as an interior substring after
lower-casing, and none of the other keywords, yet resolves to the
assistant/self-referential reply. -/
theorem demoReply_ai_substring_witness :
    demoReply "MAINTAIN" = demoResponses.ai :=
  demoReply_ai_substring "MAINTAIN" (by decide) (by decide) (by decide) (by decide)

/-- C2: a call to `sendMessage` while a request is in flight
(`chatState.isTyping`) or with empty/whitespace-only input is a no-op: the
state (transcript and pending flag) is unchanged, nothing is added to the
chat log, and no outbound request is issued. -/
theorem sendMessage_guard_noop (input : String) (outcome : ChatOutcome) (s : ChatState)
    (h : (jsTrim input).isEmpty = true ∨ s.isTyping = true) :
    sendMessage input outcome s = { state := s, uiMessages := [], requests := [] } := by
  rcases h with h | h <;> simp [sendMessage, h]

/-- C2 witness: whitespace-only input on a live, idle session changes
nothing. -/
theorem sendMessage_guard_noop_witness :
    sendMessage "   " (ChatOutcome.success "hello") ⟨[⟨"user", "hi"⟩], true, false⟩
      = ⟨⟨[⟨"user", "hi"⟩], true, false⟩, [], []⟩ :=
  sendMessage_guard_noop "   " (ChatOutcome.success "hello")
    ⟨[⟨"user", "hi"⟩], true, false⟩ (Or.inl (by decide))

/-- C6: `clearChat`, once the user confirms, empties `chatState.messages`
regardless of the session state, leaves `isConnected` (the session mode) and
`isTyping` untouched, and issues no request (no health re-probe). -/
theorem clearChat_empties_transcript_preserves_mode (confirmed : Bool) (s : ChatState)
    (h : confirmed = true) :
    (clearChat confirmed s).state.messages = []
    ∧ (clearChat confirmed s).state.isConnected = s.isConnected
    ∧ (clearChat confirmed s).state.isTyping = s.isTyping
    ∧ (clearChat confirmed s).uiMessages = []
    ∧ (clearChat confirmed s).requests = [] := by
  subst h
  simp [clearChat]

/-- C6 witness: clearing a non-empty demo-mode transcript. -/
theorem clearChat_empties_transcript_preserves_mode_witness :
    (clearChat true ⟨[⟨"user", "hi"⟩, ⟨"assistant", "yo"⟩], false, false⟩).state.messages = []
    ∧ (clearChat true ⟨[⟨"user", "hi"⟩, ⟨"assistant", "yo"⟩], false, false⟩).state.isConnected = false
    ∧ (clearChat true ⟨[⟨"user", "hi"⟩, ⟨"assistant", "yo"⟩], false, false⟩).state.isTyping = false
    ∧ (clearChat true ⟨[⟨"user", "hi"⟩, ⟨"assistant", "yo"⟩], false, false⟩).uiMessages = []
    ∧ (clearChat true ⟨[⟨"user", "hi"⟩, ⟨"assistant", "yo"⟩], false, false⟩).requests = [] :=
  clearChat_empties_transcript_preserves_mode true
    ⟨[⟨"user", "hi"⟩, ⟨"assistant", "yo"⟩], false, false⟩ rfl

/-- C1 counterexample: on a LIVE turn whose chat POST fails, `sendMessage`
appends only the user message to `chatState.messages` — the error reply goes
to the chat log alone — so the transcript grows by 1, not by 2, refuting the
claim on the failure path. -/
theorem sendMessage_live_failure_length_counterexample :
    ¬ ((sendMessage "hi" ChatOutcome.networkError ⟨[], true, false⟩).state.messages.length
        = ([] : List Message).length + 2) := by decide

/-- C1 amended: for non-empty, non-whitespace input submitted while idle,
`sendMessage` grows `chatState.messages` by exactly 2 in DEMO mode and on the
successful LIVE path, but by exactly 1 on the failed LIVE path (where the
assistant error message is shown in the chat log only); the visible chat log
always gains exactly one user and one assistant bubble. -/
theorem sendMessage_transcript_growth (input : String) (outcome : ChatOutcome) (s : ChatState)
    (hmsg : (jsTrim input).isEmpty = false) (htyping : s.isTyping = false) :
    (sendMessage input outcome s).state.messages.length
      = s.messages.length + (if s.isConnected && !outcome.isSuccess then 1 else 2)
    ∧ (sendMessage input outcome s).uiMessages.length = 2 := by
  cases hc : s.isConnected <;> cases outcome <;>
    simp [sendMessage, getAIResponse, getDemoResponse, ChatOutcome.isSuccess, hmsg, htyping, hc]

/-- C1 amended witness: a successful LIVE turn grows the transcript by 2. -/
theorem sendMessage_transcript_growth_witness :
    (sendMessage "hello" (ChatOutcome.success "yo") ⟨[], true, false⟩).state.messages.length
      = ([] : List Message).length + (if true && !(ChatOutcome.success "yo").isSuccess then 1 else 2)
    ∧ (sendMessage "hello" (ChatOutcome.success "yo") ⟨[], true, false⟩).uiMessages.length = 2 :=
  sendMessage_transcript_growth "hello" (ChatOutcome.success "yo") ⟨[], true, false⟩
    (by decide) rfl

/-- C4 counterexample: after a LIVE turn that fails with HTTP 500, the
transcript `chatState.messages` contains no assistant entry at all — the
locally generated unavailability reply went only to the chat log — refuting
"the Transcript gains exactly one assistant turn for that user turn". -/
theorem sendMessage_live_failure_assistant_counterexample :
    ¬ (((sendMessage "bye" (ChatOutcome.httpError 500) ⟨[], true, false⟩).state.messages.countP
          (fun m => m.role == "assistant")) = 1) := by decide

/-- C4 amended: on every LIVE turn whose chat POST fails (network error,
non-success status, or unreadable body), `sendMessage` shows exactly one
locally generated assistant bubble with the fixed unavailability text and
does not downgrade the mode (`isConnected` stays true); however the
transcript `chatState.messages` ends with the user message only — the
assistant error reply is not appended to it. -/
theorem sendMessage_live_failure_behavior (input : String) (outcome : ChatOutcome) (s : ChatState)
    (hmsg : (jsTrim input).isEmpty = false) (htyping : s.isTyping = false)
    (hlive : s.isConnected = true) (hfail : outcome.isSuccess = false) :
    (sendMessage input outcome s).state.messages = s.messages ++ [⟨"user", jsTrim input⟩]
    ∧ (sendMessage input outcome s).uiMessages
        = [⟨"user", jsTrim input⟩, ⟨"assistant", apiErrorText⟩]
    ∧ (sendMessage input outcome s).state.isConnected = true := by
  cases outcome <;>
    simp_all [sendMessage, getAIResponse, ChatOutcome.isSuccess, hmsg, htyping, hlive]

/-- C4 amended witness: a LIVE turn failing with a network error. -/
theorem sendMessage_live_failure_behavior_witness :
    (sendMessage "ping" ChatOutcome.networkError ⟨[], true, false⟩).state.messages
        = ([] : List Message) ++ [⟨"user", jsTrim "ping"⟩]
    ∧ (sendMessage "ping" ChatOutcome.networkError ⟨[], true, false⟩).uiMessages
        = [⟨"user", jsTrim "ping"⟩, ⟨"assistant", apiErrorText⟩]
    ∧ (sendMessage "ping" ChatOutcome.networkError ⟨[], true, false⟩).state.isConnected = true :=
  sendMessage_live_failure_behavior "ping" ChatOutcome.networkError ⟨[], true, false⟩
    (by decide) rfl rfl rfl

/-- C7: on every LIVE turn, the body POSTed to the chat endpoint carries the
full transcript with the freshly appended user message at its tail — the user
message is pushed onto `chatState.messages` before the body is built from
`chatState.messages` — and this holds on success and failure alike. -/
theorem sendMessage_live_request_tail (input : String) (outcome : ChatOutcome) (s : ChatState)
    (hmsg : (jsTrim input).isEmpty = false) (htyping : s.isTyping = false)
    (hlive : s.isConnected = true) :
    (sendMessage input outcome s).requests
      = [Request.chat ⟨s.messages ++ [⟨"user", jsTrim input⟩], 7/10, 500⟩] := by
  cases outcome <;>
    simp [sendMessage, getAIResponse, hmsg, htyping, hlive]

/-- C7 witness: a LIVE turn on a one-message transcript posts both messages,
the new user message last. -/
theorem sendMessage_live_request_tail_witness :
    (sendMessage "and then?" (ChatOutcome.success "ok") ⟨[⟨"user", "hi"⟩], true, false⟩).requests
      = [Request.chat ⟨[⟨"user", "hi"⟩] ++ [⟨"user", jsTrim "and then?"⟩], 7/10, 500⟩] :=
  sendMessage_live_request_tail "and then?" (ChatOutcome.success "ok")
    ⟨[⟨"user", "hi"⟩], true, false⟩ (by decide) rfl rfl

/-- C9: every chat POST issued by `sendMessage` — in any mode, for any input,
transcript and outcome — carries the fixed sampling parameters
`temperature = 0.7` and `max_tokens = 500`. -/
theorem sendMessage_fixed_sampling_params (input : String) (outcome : ChatOutcome) (s : ChatState)
    (body : ChatRequestBody)
    (hmem : Request.chat body ∈ (sendMessage input outcome s).requests) :
    body.temperature = 7/10 ∧ body.max_tokens = 500 := by
  cases hc : s.isConnected <;> cases hg : ((jsTrim input).isEmpty || s.isTyping) <;>
    cases outcome <;>
      simp_all [sendMessage, getAIResponse, getDemoResponse]

/-- C9 witness: the body posted on a concrete LIVE turn carries 0.7 and
500. -/
theorem sendMessage_fixed_sampling_params_witness :
    (⟨[⟨"user", "hi"⟩], 7/10, 500⟩ : ChatRequestBody).temperature = 7/10
    ∧ (⟨[⟨"user", "hi"⟩], 7/10, 500⟩ : ChatRequestBody).max_tokens = 500 :=
  sendMessage_fixed_sampling_params "hi" ChatOutcome.networkError ⟨[], true, false⟩
    ⟨[⟨"user", "hi"⟩], 7/10, 500⟩
    (by simp [sendMessage, getAIResponse, jsTrim, show "hi".isEmpty = false from rfl])

/-- C3 counterexample: the `fetch` issued by `checkAPIHealth` is configured
with method and headers only — no timeout and no abort signal appear anywhere
in the call or in `API_CONFIG` — so there is no "configured timeout bound"
within which the unreachable case completes; the probe relies on the browser
default, refuting the timeout conjunct of the claim. -/
theorem checkAPIHealth_no_timeout_configured :
    checkAPIHealthFetchInit.timeoutMs = none
    ∧ checkAPIHealthFetchInit.hasAbortSignal = false
    ∧ checkAPIHealthFetchInit.method = "GET" := by decide

/-- C3 amended: `checkAPIHealth` never throws (its whole body is wrapped in
try/catch, embedded here as a total function on probe outcomes); it sets the
mode to LIVE (`isConnected = true`) exactly when the probe returns a success
response with a parseable JSON body, and to DEMO (`isConnected = false`,
offline status shown) on any failure, non-success status, malformed body or
timeout; the transcript is untouched and exactly one probe is issued. No
completion-time bound is claimed, since the code configures no timeout. -/
theorem checkAPIHealth_resolves_mode (outcome : HealthOutcome) (s : ChatState) :
    (checkAPIHealth outcome s).state.isConnected = outcome.isOk
    ∧ (checkAPIHealth outcome s).state.messages = s.messages
    ∧ (checkAPIHealth outcome s).requests = [Request.healthProbe]
    ∧ (checkAPIHealth HealthOutcome.networkError s).state.isConnected = false
    ∧ (checkAPIHealth (HealthOutcome.notOk 503) s).state.isConnected = false
    ∧ (checkAPIHealth HealthOutcome.networkError s).statusShown
        = ("offline", "API Offline - Using Demo Mode") := by
  cases outcome <;> simp [checkAPIHealth, HealthOutcome.isOk]

/-- C8 (spec-modelled Gateway): for every valid request answered by a
successful runtime reply, `chatCompletion` returns a response carrying the
generated text as `message.content`, token usage with
`total_tokens = prompt_tokens + completion_tokens`, and an id built from the
nonce freshly drawn for that call, so two calls with distinct nonces return
distinct ids. -/
theorem chatCompletion_success_envelope (modelName : String) (now : Nat) (n1 n2 : String)
    (req : ChatRequestBody) (text : String) (rp rc : Option Nat)
    (hval : (req.messages.isEmpty || !(req.messages.all validMessage)) = false)
    (hn : n1 ≠ n2) :
    ∃ r1 r2,
      chatCompletion modelName now n1 (RuntimeOutcome.reply text rp rc) req = Except.ok r1
      ∧ chatCompletion modelName now n2 (RuntimeOutcome.reply text rp rc) req = Except.ok r2
      ∧ r1.message.content = text
      ∧ r1.usage.total_tokens = r1.usage.prompt_tokens + r1.usage.completion_tokens
      ∧ r1.id ≠ r2.id := by
  have e1 : chatCompletion modelName now n1 (RuntimeOutcome.reply text rp rc) req
      = Except.ok
          { id := "chatcmpl-" ++ n1
            model := modelName
            created := now
            message := ⟨"assistant", text⟩
            usage :=
              ⟨rp.getD (estimateTokens (String.join (req.messages.map Message.content))),
               rc.getD (estimateTokens text),
               rp.getD (estimateTokens (String.join (req.messages.map Message.content)))
                 + rc.getD (estimateTokens text)⟩ } := by
    simp [chatCompletion, hval]
  have e2 : chatCompletion modelName now n2 (RuntimeOutcome.reply text rp rc) req
      = Except.ok
          { id := "chatcmpl-" ++ n2
            model := modelName
            created := now
            message := ⟨"assistant", text⟩
            usage :=
              ⟨rp.getD (estimateTokens (String.join (req.messages.map Message.content))),
               rc.getD (estimateTokens text),
               rp.getD (estimateTokens (String.join (req.messages.map Message.content)))
                 + rc.getD (estimateTokens text)⟩ } := by
    simp [chatCompletion, hval]
  refine ⟨_, _, e1, e2, rfl, rfl, ?_⟩
  intro h
  apply hn
  have hd : ("chatcmpl-" ++ n1).data = ("chatcmpl-" ++ n2).data := congrArg String.data h
  rw [String.data_append, String.data_append] at hd
  exact String.ext (List.append_cancel_left hd)

/-- C8 witness: the round-trip of the spec, `{messages:[{role:"user",
content:"hi"}], temperature:0.7, max_tokens:50}` against a stub runtime that
echoes "hello", at two calls with distinct fresh nonces. -/
theorem chatCompletion_success_envelope_witness :
    ∃ r1 r2,
      chatCompletion "llama2" 1707489482 "abc123" (RuntimeOutcome.reply "hello" none none)
          ⟨[⟨"user", "hi"⟩], 7/10, 50⟩ = Except.ok r1
      ∧ chatCompletion "llama2" 1707489482 "def456" (RuntimeOutcome.reply "hello" none none)
          ⟨[⟨"user", "hi"⟩], 7/10, 50⟩ = Except.ok r2
      ∧ r1.message.content = "hello"
      ∧ r1.usage.total_tokens = r1.usage.prompt_tokens + r1.usage.completion_tokens
      ∧ r1.id ≠ r2.id :=
  chatCompletion_success_envelope "llama2" 1707489482 "abc123" "def456"
    ⟨[⟨"user", "hi"⟩], 7/10, 50⟩ "hello" none none (by decide) (by decide)
